import Mathlib

/-!
Shallow embedding of the core of the `nel` crate (a Network Error Logging
client library) and proofs about it.

Conventions of the embedding:
* Rust `Instant` and `Duration` values are modelled as natural numbers of
  milliseconds (every constant the code manipulates — `RETRY_TIMEOUT`,
  the 10 ms retry floor, `max_age` seconds — is an exact number of ms).
* Rust `f32` sampling fractions and random draws are modelled as rationals.
* Fallible external facilities (JSON parsing via serde, URL host
  extraction via the `url` crate) are modelled as `Option`-valued inputs:
  the embedding receives the parse result rather than re-implementing the
  parser.
* The two process-wide `TtlCache` maps are modelled as association lists
  with first-match lookup; `insert` replaces any prior entry and `remove`
  deletes every entry of the key.  TTL expiry and capacity eviction are
  not touched by any theorem below and are omitted from the model.
* Randomness (`rand::random::<f32>()` and `SliceRandom::choose`) is
  modelled by explicit parameters: a rational draw `u` in `[0,1)` and a
  pick index reduced modulo the list length.
-/

namespace Nel

/-! ### String helpers

`to_lowercase` and substring containment used by the error classifier
(`str.contains(pat)` in Rust). -/

/-- Rust `str::to_lowercase` (the messages matched by the classifier are
ASCII, where `Char.toLower` agrees with Rust). -/
def lower_str (s : String) : String :=
  ⟨s.data.map Char.toLower⟩

/-- Does `s` start with the character sequence `pat`? -/
def list_starts : List Char → List Char → Bool
  | [], _ => true
  | _ :: _, [] => false
  | p :: ps, c :: cs => p == c && list_starts ps cs

/-- Does `s` contain `pat` as a contiguous subsequence? -/
def list_has (pat : List Char) : List Char → Bool
  | [] => pat.isEmpty
  | c :: cs => list_starts pat (c :: cs) || list_has pat cs

/-- Rust `str::contains(pat)`. -/
def contains_sub (s pat : String) : Bool :=
  list_has pat.data s.data

/-! ### `Error` — src/src/error.rs -/

/-- `nel::Error {class, subclass}` (src/src/error.rs).  The Rust field
`class` is a reserved word in Lean, so it is named `cls` here. -/
structure Error where
  cls : String
  subclass : String
deriving DecidableEq, Repr

/-- `Error::phase` (src/src/error.rs lines 25-37). -/
def Error.phase (e : Error) : String :=
  if e.cls = "dns" then "dns"
  else if e.cls = "tcp" then "connection"
  else if e.cls = "udp" then "connection"
  else if e.cls = "tls" then "connection"
  else if e.cls = "http" then "application"
  else if e.cls = "abandoned" then "application"
  else "unknown"

/-- `impl ToString for Error` (src/src/error.rs lines 39-49). -/
def Error.to_string (e : Error) : String :=
  if e.cls = "unknown" then "unknown"
  else if e.cls = "abandoned" then "abandoned"
  else e.cls ++ "." ++ e.subclass

/-! ### I/O error classifier — src/src/error.rs lines 51-87 -/

/-- The `std::io::ErrorKind` values the classifier distinguishes; every
other kind takes the `_` branch and is collapsed into `Other`. -/
inductive IoErrorKind where
  | TimedOut
  | ConnectionReset
  | ConnectionRefused
  | ConnectionAborted
  | Other
deriving DecidableEq, Repr

/-- The inner error returned by `std::io::Error::get_ref`, abstracted to
the one bit the classifier inspects: whether it downcasts to
`rustls::Error`. -/
structure IoInner where
  is_rustls : Bool
deriving DecidableEq, Repr

/-- A `std::io::Error` as seen by the classifier: its kind, its rendered
`Display` message, and its optional wrapped inner error. -/
structure IoError where
  kind : IoErrorKind
  message : String
  inner : Option IoInner
deriving DecidableEq, Repr

/-- `impl From<&std::io::Error> for Error` (src/src/error.rs lines
51-87).  `Error::new("unknown", err)` renders the error's message. -/
def io_error_classify (err : IoError) : Error :=
  match err.kind with
  | .TimedOut => ⟨"tcp", "timed_out"⟩
  | .ConnectionReset => ⟨"tcp", "reset"⟩
  | .ConnectionRefused => ⟨"tcp", "refused"⟩
  | .ConnectionAborted => ⟨"tcp", "aborted"⟩
  | .Other =>
    let str := lower_str err.message
    if contains_sub str "no address" || contains_sub str "name or service not known" then
      ⟨"dns", "name_not_resolved"⟩
    else if contains_sub str "no route to host" then ⟨"tcp", "address_unreachable"⟩
    else if contains_sub str "unreachable" then ⟨"tcp", "address_unreachable"⟩
    else if contains_sub str "expired" then ⟨"tls", "cert.date_invalid"⟩
    else if contains_sub str "unknownissuer" then ⟨"tls", "cert.authority_invalid"⟩
    else if contains_sub str "certnotvalidforname" then ⟨"tls", "cert.name_invalid"⟩
    else
      match err.inner with
      | none => ⟨"tcp", "failed"⟩
      | some inner =>
        if inner.is_rustls then ⟨"tls", "protocol.error"⟩
        else ⟨"unknown", err.message⟩

/-! ### hyper / reqwest error classifier — src/src/error/reqwest.rs -/

/-- A `hyper::Error` as seen by the classifier: the first `std::io::Error`
found while walking its `source()` chain (if any), its category
predicates, the rendered message of `err.source()` when `is_connect`
holds, and its own rendered message. -/
structure HyperError where
  io_in_chain : Option IoError
  is_connect : Bool
  connect_source : Option String
  is_parse : Bool
  is_user : Bool
  is_incomplete_message : Bool
  is_body_write_aborted : Bool
  is_timeout : Bool
  is_closed : Bool
  is_canceled : Bool
  message : String
deriving DecidableEq, Repr

/-- `impl From<&hyper::Error> for Error` (src/src/error/reqwest.rs lines
19-77). -/
def hyper_error_classify (err : HyperError) : Error :=
  match err.io_in_chain with
  | some io_err => io_error_classify io_err
  | none =>
    if err.is_connect then
      match err.connect_source with
      | some s =>
        if contains_sub s "Hostname mismatch" then ⟨"tls", "cert.name_invalid"⟩
        else if contains_sub s "certificate has expired" then ⟨"tls", "cert.date_invalid"⟩
        else if contains_sub s "self signed certificate in certificate chain" then
          ⟨"tls", "cert.authority_invalid"⟩
        else ⟨"tcp", "failed"⟩
      | none => ⟨"tcp", "failed"⟩
    else if err.is_parse then ⟨"http", "response.invalid"⟩
    else if err.is_user then ⟨"http", "protocol.error"⟩
    else if err.is_incomplete_message then ⟨"tcp", "closed"⟩
    else if err.is_body_write_aborted then ⟨"abandoned", ""⟩
    else if err.is_timeout then ⟨"tcp", "timed_out"⟩
    else if err.is_closed then ⟨"tcp", "reset"⟩
    else if err.is_canceled then ⟨"tcp", "aborted"⟩
    else ⟨"unknown", err.message⟩

/-- A `reqwest::Error` as seen by the classifier: the first
`hyper::Error` found while walking its `source()` chain (if any) and its
rendered message. -/
structure ReqwestError where
  hyper_in_chain : Option HyperError
  message : String
deriving DecidableEq, Repr

/-- `impl From<&reqwest::Error> for Error` (src/src/error/reqwest.rs
lines 1-17). -/
def reqwest_error_classify (err : ReqwestError) : Error :=
  match err.hyper_in_chain with
  | some hyper_err => hyper_error_classify hyper_err
  | none => ⟨"unknown", err.message⟩

/-! ### `NELReport` — src/src/report.rs -/

/-- `NELReport` (src/src/report.rs lines 5-19).  `captured` is the
`Instant` of construction, in ms.

The extra field `host_override` is Modelled from the spec: the reporter's
`choose_endpoint` in src/src/lib.rs line 221 reads `report.host_override`
("if the report has an explicit host override use it"), but the
`NELReport` variant under src/src/report.rs does not declare the field;
the spec's defaults give it no value at construction. -/
structure NELReport where
  captured : Nat
  url : String
  referer : String
  server_ip : String
  protocol : String
  method : String
  status_code : Nat
  elapsed_time : Nat
  phase : String
  error_type : String
  host_override : Option String
deriving DecidableEq, Repr

/-- `NELReport::new` (src/src/report.rs lines 22-36); `now` stands for
the `Instant::now()` taken at construction. -/
def NELReport.new (url : String) (now : Nat) : NELReport where
  captured := now
  url := url
  referer := ""
  server_ip := ""
  protocol := ""
  method := ""
  status_code := 0
  elapsed_time := 0
  phase := ""
  error_type := ""
  host_override := none

/-- `NELReport::is_success` (src/src/report.rs lines 39-41). -/
def NELReport.is_success (r : NELReport) : Bool :=
  r.phase == ""

/-- `opt_to_string` (src/src/report.rs lines 86-91), at `T = String`. -/
def opt_to_string (input : Option String) : String :=
  match input with
  | none => ""
  | some val => val

/-- The port-stripping logic of `set_server_ip` (src/src/report.rs lines
49-54): `s[1..].splitn(2, ']').next()` is the part of `s[1..]` before the
first `]`, and `s.splitn(2, ':').next()` the part of `s` before the first
`:`. -/
def strip_port (s : String) : String :=
  if s.data.head? = some '[' then
    ⟨(s.data.drop 1).takeWhile (fun c => c ≠ ']')⟩
  else
    ⟨s.data.takeWhile (fun c => c ≠ ':')⟩

/-- `NELReport::set_referer` (src/src/report.rs lines 43-45). -/
def NELReport.set_referer (r : NELReport) (val : Option String) : NELReport :=
  { r with referer := opt_to_string val }

/-- `NELReport::set_server_ip` (src/src/report.rs lines 46-57). -/
def NELReport.set_server_ip (r : NELReport) (val : Option String) : NELReport :=
  { r with server_ip := strip_port (opt_to_string val) }

/-- `NELReport::set_protocol` (src/src/report.rs lines 58-60). -/
def NELReport.set_protocol (r : NELReport) (val : Option String) : NELReport :=
  { r with protocol := opt_to_string val }

/-- `NELReport::set_method` (src/src/report.rs lines 61-63). -/
def NELReport.set_method (r : NELReport) (val : Option String) : NELReport :=
  { r with method := opt_to_string val }

/-- `NELReport::set_status_code` (src/src/report.rs lines 64-66). -/
def NELReport.set_status_code (r : NELReport) (code : Nat) : NELReport :=
  { r with status_code := code }

/-- `NELReport::set_elapsed_time` (src/src/report.rs lines 67-69). -/
def NELReport.set_elapsed_time (r : NELReport) (elapsed : Nat) : NELReport :=
  { r with elapsed_time := elapsed }

/-- `NELReport::set_error` (src/src/report.rs lines 71-78), taking the
classifier's result directly (`T: Into<Error>` already converted). -/
def NELReport.set_error (r : NELReport) (e : Error) : NELReport :=
  let e := if r.protocol = "wireguard" ∧ e.cls = "tcp" then { e with cls := "udp" } else e
  { r with phase := e.phase, error_type := e.to_string }

/-- `ReportBody` (src/src/report.rs lines 109-121).  `sampling_fraction`
is an `f32`, modelled as a rational; `elapsed_time` is `u128`
milliseconds. -/
structure ReportBody where
  referrer : String
  sampling_fraction : Rat
  server_ip : String
  protocol : String
  method : String
  status_code : Nat
  elapsed_time : Nat
  phase : String
  error_type : String
deriving DecidableEq, Repr

/-- `ReportHeader` (src/src/report.rs lines 99-107); the serde-renamed
`type` field is `report_type`, as in the Rust struct. -/
structure ReportHeader where
  age : Nat
  report_type : String
  url : String
  body : ReportBody
deriving DecidableEq, Repr

/-- `impl From<&NELReport> for ReportHeader` (src/src/report.rs lines
123-153); `now` stands for the `Instant::now()` taken during
serialization.  `checked_duration_since` yields `none` when `now` is
earlier than `captured`, and the `as usize` cast of `as_millis`
truncates to 64 bits. -/
def report_header_from (now : Nat) (report : NELReport) : ReportHeader where
  age := (match (if report.captured ≤ now then some (now - report.captured) else none) with
          | some d => d
          | none => 0) % 2 ^ 64
  report_type := "network-error"
  url := report.url
  body :=
    { referrer := report.referer
      sampling_fraction := 1
      server_ip := report.server_ip
      protocol := report.protocol
      method := report.method
      status_code := report.status_code
      elapsed_time := report.elapsed_time
      phase := if report.is_success then "application" else report.phase
      error_type := if report.is_success then "ok" else report.error_type }

/-- `NELReport::serialize` (src/src/report.rs lines 80-84), modelled to
the structured level: the JSON document is the serde rendering of this
one-element list. -/
def NELReport.serialize (r : NELReport) (now : Nat) : List ReportHeader :=
  [report_header_from now r]

/-- `FailedReport` (src/src/report.rs lines 93-97); `last_try` is an
`Instant` in ms. -/
structure FailedReport where
  last_try : Nat
  original : NELReport
deriving DecidableEq, Repr

/-- The setters of `NELReport` other than `set_error`, reified so that
"a report on which `set_error` was never called" can be quantified over. -/
inductive ReportOp where
  | set_referer (val : Option String)
  | set_server_ip (val : Option String)
  | set_protocol (val : Option String)
  | set_method (val : Option String)
  | set_status_code (code : Nat)
  | set_elapsed_time (elapsed : Nat)
deriving DecidableEq, Repr

/-- Apply one reified setter. -/
def apply_op (r : NELReport) : ReportOp → NELReport
  | .set_referer val => r.set_referer val
  | .set_server_ip val => r.set_server_ip val
  | .set_protocol val => r.set_protocol val
  | .set_method val => r.set_method val
  | .set_status_code code => r.set_status_code code
  | .set_elapsed_time elapsed => r.set_elapsed_time elapsed

/-- Apply a sequence of reified setters, left to right. -/
def apply_ops (r : NELReport) (ops : List ReportOp) : NELReport :=
  ops.foldl apply_op r

/-! ### Policy caches and header ingestion — src/src/lib.rs -/

/-- `NELPolicy` (src/src/lib.rs lines 25-30); the two `f32` fractions are
modelled as rationals. -/
structure NELPolicy where
  report_to : String
  success_fraction : Rat
  failure_fraction : Rat
deriving DecidableEq, Repr

/-- `TtlCache::get`: first entry of the key (model of the cache maps
behind `NEL_POLICY_CACHE` and `GROUP_POLICY_CACHE`). -/
def cache_get {α : Type} (k : String) (c : List (String × α)) : Option α :=
  (c.find? (fun e => e.1 == k)).map (fun e => e.2)

/-- `TtlCache::remove`: delete every entry of the key. -/
def cache_remove {α : Type} (k : String) (c : List (String × α)) : List (String × α) :=
  c.filter (fun e => e.1 != k)

/-- `TtlCache::insert`: replace any prior entry of the key. -/
def cache_insert {α : Type} (k : String) (v : α) (c : List (String × α)) : List (String × α) :=
  (k, v) :: cache_remove k c

/-- `NelHeader` (src/src/lib.rs lines 39-55): the serde shape of a `NEL`
header, with serde defaults `include_subdomains = false`,
`success_fraction = 0.0`, `failure_fraction = 1.0` already applied by
the parse. -/
structure NelHeader where
  report_to : String
  max_age : Nat
  include_subdomains : Bool
  success_fraction : Rat
  failure_fraction : Rat
deriving DecidableEq, Repr

/-- `nel_header` (src/src/lib.rs lines 58-87).  `parsed` is the outcome
of `serde_json::from_str::<NelHeader>(hdr)` (`none` = malformed JSON);
the function maps the prior state of `NEL_POLICY_CACHE` to the new
state.  The `ttl = max_age seconds` passed to `insert` is not recorded
(TTL is omitted from the cache model). -/
def nel_header (host : String) (parsed : Option NelHeader) (cache : List (String × NELPolicy)) :
    List (String × NELPolicy) :=
  match parsed with
  | none => cache
  | some p =>
    let valid := !(p.report_to == "") &&
      decide (0 ≤ p.success_fraction ∧ p.success_fraction ≤ 1) &&
      decide (0 ≤ p.failure_fraction ∧ p.failure_fraction ≤ 1)
    if !valid then cache
    else if p.max_age = 0 then cache_remove host cache
    else cache_insert host ⟨p.report_to, p.success_fraction, p.failure_fraction⟩ cache

/-! ### Bounded queue — `deadqueue::limited::Queue` -/

/-- `deadqueue::limited::Queue`: a FIFO buffer with a fixed capacity set
at construction. -/
structure Queue (α : Type) where
  capacity : Nat
  items : List α
deriving DecidableEq, Repr

/-- `Queue::new(cap)`. -/
def Queue.new (α : Type) (cap : Nat) : Queue α :=
  ⟨cap, []⟩

/-- `Queue::try_push`: appends at the back and reports `true` when there
is room; when the queue is full it is left unchanged, the offered item
is rejected, and the call reports `false`. -/
def Queue.try_push {α : Type} (q : Queue α) (x : α) : Queue α × Bool :=
  if q.items.length < q.capacity then ({ q with items := q.items ++ [x] }, true)
  else (q, false)

/-- `Queue::try_pop`: removes and returns the front item, if any. -/
def Queue.try_pop {α : Type} (q : Queue α) : Option α × Queue α :=
  match q.items with
  | [] => (none, q)
  | x :: rest => (some x, { q with items := rest })

/-- The retry queue created by `handle_reports`
(src/src/lib.rs line 152): `Queue::new(256)`. -/
def handle_reports_failed_queue : Queue FailedReport :=
  Queue.new FailedReport 256

/-! ### Retry timing — src/src/lib.rs lines 23 and 203-213 -/

/-- `RETRY_TIMEOUT = Duration::from_secs(60)` (src/src/lib.rs line 23),
in ms. -/
def RETRY_TIMEOUT : Nat := 60000

/-- `Duration::checked_sub`: `none` exactly when the subtraction would
underflow. -/
def duration_checked_sub (a b : Nat) : Option Nat :=
  if b ≤ a then some (a - b) else none

/-- The retry sleep computed in `handle_reports` (src/src/lib.rs lines
205-207): `RETRY_TIMEOUT.checked_sub(now - last_try).unwrap_or(10ms)`.
`Instant::duration_since` is modelled by truncated subtraction (the code
only forms it with `last_try ≤ now`). -/
def retry_sleep (now last_try : Nat) : Nat :=
  match duration_checked_sub RETRY_TIMEOUT (now - last_try) with
  | some d => d
  | none => 10

/-- The tail of the retry branch of `handle_reports` (src/src/lib.rs
lines 203-213): given the entry popped from the retry queue (if any),
the armed timer duration and new `next_failed`, or `none` when the
queue was empty (timer disarmed, `next_failed` cleared). -/
def arm_next_retry (now : Nat) (popped : Option FailedReport) : Option (Nat × FailedReport) :=
  match popped with
  | some failed => some (retry_sleep now failed.last_try, failed)
  | none => none

/-! ### Endpoint selection — src/src/lib.rs lines 219-255 -/

/-- The host the reporter attributes a report to (src/src/lib.rs lines
221-227): the explicit override when present, else the host of the
parsed URL.  `url_host` stands for `Url::parse(_).host_str()` from the
external `url` crate. -/
def report_host (url_host : String → Option String) (report : NELReport) : Option String :=
  match report.host_override with
  | some host => some host
  | none => url_host report.url

/-- `SliceRandom::choose`: `none` on an empty slice, otherwise the
element at the random index `pick % length`. -/
def list_choose (l : List String) (pick : Nat) : Option String :=
  if l.isEmpty then none else l.get? (pick % l.length)

/-- `choose_endpoint` (src/src/lib.rs lines 219-255).  The two cache
singletons are passed as arguments, `u` is the `random::<f32>()` draw in
`[0,1)` and `pick` the endpoint-choice randomness; `u ≥ fraction` in the
code is `fraction ≤ u` here. -/
def choose_endpoint (nel_cache : List (String × NELPolicy))
    (group_cache : List (String × List String)) (url_host : String → Option String)
    (u : Rat) (pick : Nat) (report : NELReport) (evaluate_drop : Bool) : Option String :=
  match report_host url_host report with
  | none => none
  | some host =>
    match cache_get host nel_cache with
    | none => none
    | some nel_policy =>
      match cache_get (host ++ ":" ++ nel_policy.report_to) group_cache with
      | none => none
      | some group_policy =>
        let dropped := evaluate_drop &&
          (if report.is_success then decide (nel_policy.success_fraction ≤ u)
           else decide (nel_policy.failure_fraction ≤ u))
        if dropped then none
        else list_choose group_policy pick

end Nel

namespace Nel

/-! ## Theorems -/

/-- Claim C1, counterexample: at `now − last_try = RETRY_TIMEOUT` the code's
`checked_sub(..).unwrap_or(10ms)` computes a sleep of `0`, while the claim's
formula `max(10ms, RETRY_TIMEOUT − (now − last_try))` gives `10ms` and the
claim asserts the computed sleep is never zero. -/
theorem retry_sleep_zero_counterexample :
    retry_sleep RETRY_TIMEOUT 0 = 0 ∧
    max 10 (RETRY_TIMEOUT - (RETRY_TIMEOUT - 0)) = 10 := by
  decide

/-- Claim C1 (amended): the retry sleep armed for a popped failed report is
`RETRY_TIMEOUT − (now − last_try)` when the elapsed time does not exceed
`RETRY_TIMEOUT`, and `10ms` when it does; it is never negative but is zero
exactly when the elapsed time equals `RETRY_TIMEOUT`, and when
`last_try = now − 2·RETRY_TIMEOUT` it is exactly `10ms`. -/
theorem retry_sleep_amended :
    arm_next_retry (2 * RETRY_TIMEOUT) (some ⟨0, NELReport.new "" 0⟩)
      = some (10, ⟨0, NELReport.new "" 0⟩) ∧
    (∀ now last_try : Nat, now - last_try ≤ RETRY_TIMEOUT →
      retry_sleep now last_try = RETRY_TIMEOUT - (now - last_try)) ∧
    (∀ now last_try : Nat, RETRY_TIMEOUT < now - last_try → retry_sleep now last_try = 10) ∧
    (∀ now last_try : Nat, 0 < retry_sleep now last_try ∨ now - last_try = RETRY_TIMEOUT) := by
  refine ⟨by decide, ?_, ?_, ?_⟩
  · intro now last_try h
    simp [retry_sleep, duration_checked_sub, h]
  · intro now last_try h
    simp [retry_sleep, duration_checked_sub, Nat.not_le.mpr h]
  · intro now last_try
    by_cases h : now - last_try ≤ RETRY_TIMEOUT
    · rcases Nat.lt_or_ge (now - last_try) RETRY_TIMEOUT with h1 | h1
      · left
        simp [retry_sleep, duration_checked_sub, h]
        omega
      · right
        omega
    · left
      simp [retry_sleep, duration_checked_sub, h]

/-- Claim C1, witness: the amended theorem evaluated at `now = 30000` ms and
`last_try = 0`. -/
theorem retry_sleep_amended_witness : retry_sleep 30000 0 = 30000 := by
  have h := retry_sleep_amended.2.1 30000 0 (by decide)
  rw [h]
  decide

/-- Claim C2, counterexample: pushing a newly failed report onto a full
256-entry retry queue leaves the queue unchanged — the newly failed report is
the one dropped and every oldest-pending entry is retained, the reverse of the
claim's overflow behaviour. -/
theorem retry_queue_overflow_counterexample :
    Queue.try_push ⟨256, List.replicate 256 ⟨0, NELReport.new "" 0⟩⟩
        (⟨1, NELReport.new "" 0⟩ : FailedReport)
      = (⟨256, List.replicate 256 ⟨0, NELReport.new "" 0⟩⟩, false) ∧
    (⟨1, NELReport.new "" 0⟩ : FailedReport) ∉
      List.replicate 256 (⟨0, NELReport.new "" 0⟩ : FailedReport) ∧
    (⟨0, NELReport.new "" 0⟩ : FailedReport) ∈
      List.replicate 256 (⟨0, NELReport.new "" 0⟩ : FailedReport) := by
  refine ⟨?_, ?_, ?_⟩
  · rw [Queue.try_push, if_neg]
    rw [List.length_replicate]
    exact Nat.lt_irrefl 256
  · rw [List.mem_replicate]
    simp
  · rw [List.mem_replicate]
    simp

/-- Claim C2 (amended): the retry queue has fixed capacity 256, and `try_push`
onto a full retry queue fails, dropping the newly failed report and retaining
the oldest-pending retries; below capacity the report is appended at the
back. -/
theorem retry_queue_overflow_amended :
    handle_reports_failed_queue.capacity = 256 ∧
    (∀ (q : Queue FailedReport) (x : FailedReport), q.items.length = q.capacity →
      q.try_push x = (q, false)) ∧
    (∀ (q : Queue FailedReport) (x : FailedReport), q.items.length < q.capacity →
      (q.try_push x).1.items = q.items ++ [x]) := by
  refine ⟨rfl, ?_, ?_⟩
  · intro q x h
    simp [Queue.try_push, h]
  · intro q x h
    simp [Queue.try_push, h]

/-- Claim C2, witness: the amended theorem's full-queue case evaluated on a
concrete full queue. -/
theorem retry_queue_overflow_amended_witness :
    Queue.try_push ⟨256, List.replicate 256 ⟨0, NELReport.new "" 0⟩⟩
        (⟨2, NELReport.new "" 0⟩ : FailedReport)
      = (⟨256, List.replicate 256 ⟨0, NELReport.new "" 0⟩⟩, false) :=
  retry_queue_overflow_amended.2.1 _ _ (by rw [List.length_replicate])

/-- Claim C3, counterexample: the I/O error with unrecognized kind, message
"boom" (matching no substring rule, as the trailing conjuncts certify) and no
wrapped inner error is classified `(tcp, failed)`, not `(unknown, "boom")` as
the claim requires. -/
theorem classifier_fallback_counterexample :
    io_error_classify ⟨IoErrorKind.Other, "boom", none⟩ = ⟨"tcp", "failed"⟩ ∧
    io_error_classify ⟨IoErrorKind.Other, "boom", none⟩ ≠ ⟨"unknown", "boom"⟩ ∧
    contains_sub (lower_str "boom") "no address" = false ∧
    contains_sub (lower_str "boom") "name or service not known" = false ∧
    contains_sub (lower_str "boom") "no route to host" = false ∧
    contains_sub (lower_str "boom") "unreachable" = false ∧
    contains_sub (lower_str "boom") "expired" = false ∧
    contains_sub (lower_str "boom") "unknownissuer" = false ∧
    contains_sub (lower_str "boom") "certnotvalidforname" = false := by
  decide

/-- Claim C3 (amended): when none of the earlier classifier rules matches and
no wrapped TLS-library error is present, the classifier returns class unknown
with the rendered message as subclass for hyper errors, for reqwest errors
with no hyper cause, and for I/O errors wrapping a non-TLS inner error — but
an I/O error wrapping no inner error at all is classified `(tcp, failed)`. -/
theorem classifier_fallback_amended :
    (∀ e : IoError, e.kind = IoErrorKind.Other →
      contains_sub (lower_str e.message) "no address" = false →
      contains_sub (lower_str e.message) "name or service not known" = false →
      contains_sub (lower_str e.message) "no route to host" = false →
      contains_sub (lower_str e.message) "unreachable" = false →
      contains_sub (lower_str e.message) "expired" = false →
      contains_sub (lower_str e.message) "unknownissuer" = false →
      contains_sub (lower_str e.message) "certnotvalidforname" = false →
      (e.inner = none → io_error_classify e = ⟨"tcp", "failed"⟩) ∧
      (∀ inner, e.inner = some inner → inner.is_rustls = false →
        io_error_classify e = ⟨"unknown", e.message⟩)) ∧
    (∀ h : HyperError, h.io_in_chain = none → h.is_connect = false → h.is_parse = false →
      h.is_user = false → h.is_incomplete_message = false → h.is_body_write_aborted = false →
      h.is_timeout = false → h.is_closed = false → h.is_canceled = false →
      hyper_error_classify h = ⟨"unknown", h.message⟩) ∧
    (∀ r : ReqwestError, r.hyper_in_chain = none →
      reqwest_error_classify r = ⟨"unknown", r.message⟩) := by
  refine ⟨?_, ?_, ?_⟩
  · intro e hk h1 h2 h3 h4 h5 h6 h7
    obtain ⟨k, msg, inn⟩ := e
    simp only at hk h1 h2 h3 h4 h5 h6 h7
    subst hk
    constructor
    · intro hinn
      simp only at hinn
      subst hinn
      simp [io_error_classify, h1, h2, h3, h4, h5, h6, h7]
    · intro inner hinn hr
      simp only at hinn
      subst hinn
      simp [io_error_classify, h1, h2, h3, h4, h5, h6, h7, hr]
  · intro h hio hc hp hu him hb ht hcl hca
    obtain ⟨io_c, c, cs, p, us, im, bw, t, cl, ca, msg⟩ := h
    simp only at hio hc hp hu him hb ht hcl hca
    subst hio hc hp hu him hb ht hcl hca
    simp [hyper_error_classify]
  · intro r hr
    obtain ⟨hc, msg⟩ := r
    simp only at hr
    subst hr
    simp [reqwest_error_classify]

/-- Claim C3, witness: the amended theorem evaluated on an unmatched I/O error
wrapping a non-TLS inner error. -/
theorem classifier_fallback_amended_witness :
    io_error_classify ⟨IoErrorKind.Other, "mystery failure", some ⟨false⟩⟩
      = ⟨"unknown", "mystery failure"⟩ :=
  ((classifier_fallback_amended.1 ⟨IoErrorKind.Other, "mystery failure", some ⟨false⟩⟩ rfl
    (by decide) (by decide) (by decide) (by decide) (by decide) (by decide) (by decide)).2
    ⟨false⟩ rfl rfl)

/-- Lookup of a key always misses after `cache_remove` of that key. -/
theorem cache_get_remove {α : Type} (k : String) (c : List (String × α)) :
    cache_get k (cache_remove k c) = none := by
  induction c with
  | nil => rfl
  | cons e rest ih =>
    by_cases h : e.1 = k
    · simp only [cache_remove, List.filter_cons] at ih ⊢
      simp [h, ih]
    · simp only [cache_remove, List.filter_cons] at ih ⊢
      simp [cache_get, List.find?, h]

/-- Claim C4: a valid NEL header with `max_age = 0` removes the cached policy
for the host, so a subsequent lookup for the host finds nothing; malformed
JSON, an empty `report_to`, or a sampling fraction outside `[0,1]` leaves the
policy cache completely unchanged. -/
theorem nel_header_cache_ok :
    ∀ (host : String) (hdr : NelHeader) (cache : List (String × NELPolicy)),
      (hdr.report_to ≠ "" → 0 ≤ hdr.success_fraction → hdr.success_fraction ≤ 1 →
        0 ≤ hdr.failure_fraction → hdr.failure_fraction ≤ 1 → hdr.max_age = 0 →
        cache_get host (nel_header host (some hdr) cache) = none) ∧
      (nel_header host none cache = cache) ∧
      ((hdr.report_to = "" ∨ hdr.success_fraction < 0 ∨ 1 < hdr.success_fraction ∨
          hdr.failure_fraction < 0 ∨ 1 < hdr.failure_fraction) →
        nel_header host (some hdr) cache = cache) := by
  intro host hdr cache
  refine ⟨?_, rfl, ?_⟩
  · intro h1 h2 h3 h4 h5 h6
    simp [nel_header, h1, h2, h3, h4, h5, h6, cache_get_remove]
  · rintro (h | h | h | h | h)
    · simp [nel_header, h]
    · simp [nel_header, not_le.mpr h]
    · simp [nel_header, not_le.mpr h]
    · simp [nel_header, not_le.mpr h]
    · simp [nel_header, not_le.mpr h]

/-- Claim C4, witness: removal by `max_age = 0` evaluated on a one-entry
cache. -/
theorem nel_header_cache_witness :
    cache_get "h" (nel_header "h" (some ⟨"g", 0, false, 0, 1⟩) [("h", ⟨"g", 0, 1⟩)]) = none :=
  (nel_header_cache_ok "h" ⟨"g", 0, false, 0, 1⟩ [("h", ⟨"g", 0, 1⟩)]).1
    (by decide) (by norm_num) (by norm_num) (by norm_num) (by norm_num) rfl

/-- Claim C5: for a success report whose host has a cached NEL policy and a
cached non-empty endpoint group, the selector with `evaluate_drop = true`
returns none whenever `success_fraction = 0`, for every draw `u ∈ [0,1)`;
with `success_fraction = 1` it returns some endpoint that is a member of the
cached endpoint list. -/
theorem choose_endpoint_sampling :
    ∀ (nel_cache : List (String × NELPolicy)) (group_cache : List (String × List String))
      (url_host : String → Option String) (u : Rat) (pick : Nat) (r : NELReport)
      (host : String) (policy : NELPolicy) (eps : List String),
      r.is_success = true →
      report_host url_host r = some host →
      cache_get host nel_cache = some policy →
      cache_get (host ++ ":" ++ policy.report_to) group_cache = some eps →
      eps ≠ [] →
      0 ≤ u → u < 1 →
      (policy.success_fraction = 0 →
        choose_endpoint nel_cache group_cache url_host u pick r true = none) ∧
      (policy.success_fraction = 1 →
        ∃ ep, choose_endpoint nel_cache group_cache url_host u pick r true = some ep ∧
          ep ∈ eps) := by
  intro nel_cache group_cache url_host u pick r host policy eps
  intro hsucc hhost hpol hgrp heps hu0 hu1
  constructor
  · intro h0
    simp [choose_endpoint, hhost, hpol, hgrp, hsucc, h0, hu0]
  · intro h1
    have hdrop : ¬ (policy.success_fraction ≤ u) := by
      rw [h1]
      exact not_le.mpr hu1
    have hlen : 0 < eps.length := List.length_pos.mpr heps
    have hlt : pick % eps.length < eps.length := Nat.mod_lt _ hlen
    rcases heq : eps.get? (pick % eps.length) with _ | ep
    · exfalso
      rw [List.get?_eq_none] at heq
      omega
    · refine ⟨ep, ?_, List.get?_mem heq⟩
      have heq2 : eps[pick % eps.length]? = some ep := by
        rw [← List.get?_eq_getElem?]
        exact heq
      simp [choose_endpoint, hhost, hpol, hgrp, hsucc, hdrop, list_choose, heps, heq2]

/-- Claim C5, witness: the `success_fraction = 0` case evaluated on concrete
caches, a success report with host override `"h"`, and draw `u = 1/2`. -/
theorem choose_endpoint_sampling_witness :
    choose_endpoint [("h", ⟨"g", 0, 1⟩)] [("h:g", ["https://c/r"])] (fun _ => none) (1 / 2) 0
      { NELReport.new "u" 0 with host_override := some "h" } true = none :=
  (choose_endpoint_sampling [("h", ⟨"g", 0, 1⟩)] [("h:g", ["https://c/r"])] (fun _ => none)
    (1 / 2) 0 { NELReport.new "u" 0 with host_override := some "h" } "h" ⟨"g", 0, 1⟩
    ["https://c/r"] rfl rfl (by decide) (by decide) (by decide) (by norm_num)
    (by norm_num)).1 rfl

/-- Claim C6: when the report's protocol is "wireguard" and the classifier
returned class `tcp`, `set_error` stores class `udp` with the subclass
unchanged, so the report serializes with `udp.<subclass>` as its wire type;
errors of any other class are stored unmodified. -/
theorem set_error_wireguard :
    ∀ (r : NELReport) (e : Error) (now : Nat),
      r.protocol = "wireguard" →
      (e.cls = "tcp" →
        (r.set_error e).error_type = "udp." ++ e.subclass ∧
        (r.set_error e).phase = "connection" ∧
        ∃ hd, (r.set_error e).serialize now = [hd] ∧
          hd.body.error_type = "udp." ++ e.subclass) ∧
      (e.cls ≠ "tcp" →
        (r.set_error e).phase = e.phase ∧ (r.set_error e).error_type = e.to_string) := by
  intro r e now hw
  constructor
  · intro ht
    have htype : (r.set_error e).error_type = "udp." ++ e.subclass := by
      simp [NELReport.set_error, hw, ht, Error.to_string]
    have hphase : (r.set_error e).phase = "connection" := by
      simp [NELReport.set_error, hw, ht, Error.phase]
    refine ⟨htype, hphase, report_header_from now (r.set_error e), rfl, ?_⟩
    simp [report_header_from, NELReport.is_success, hphase, htype]
  · intro ht
    constructor
    · simp [NELReport.set_error, ht]
    · simp [NELReport.set_error, ht]

/-- Claim C6, witness: the substitution evaluated on a wireguard report and
the classifier result `(tcp, timed_out)`. -/
theorem set_error_wireguard_witness :
    (((NELReport.new "u" 0).set_protocol (some "wireguard")).set_error
        ⟨"tcp", "timed_out"⟩).error_type = "udp." ++ "timed_out" :=
  ((set_error_wireguard ((NELReport.new "u" 0).set_protocol (some "wireguard"))
    ⟨"tcp", "timed_out"⟩ 0 rfl).1 rfl).1

/-- No setter other than `set_error` touches the `phase` field. -/
theorem apply_ops_phase (r : NELReport) (ops : List ReportOp) :
    (apply_ops r ops).phase = r.phase := by
  induction ops generalizing r with
  | nil => rfl
  | cons op rest ih =>
    have hstep : (apply_op r op).phase = r.phase := by
      cases op <;>
        simp [apply_op, NELReport.set_referer, NELReport.set_server_ip, NELReport.set_protocol,
          NELReport.set_method, NELReport.set_status_code, NELReport.set_elapsed_time]
    calc (apply_ops r (op :: rest)).phase
        = (apply_ops (apply_op r op) rest).phase := rfl
      _ = (apply_op r op).phase := ih (apply_op r op)
      _ = r.phase := hstep

/-- Claim C7: a report built by `new` and any sequence of setters other than
`set_error` serializes to a one-element list whose single object has top-level
type "network-error" and whose body has phase "application" and type "ok". -/
theorem serialize_success_framing :
    ∀ (url : String) (t0 : Nat) (ops : List ReportOp) (now : Nat),
      ∃ hd, (apply_ops (NELReport.new url t0) ops).serialize now = [hd] ∧
        hd.report_type = "network-error" ∧ hd.body.phase = "application" ∧
        hd.body.error_type = "ok" := by
  intro url t0 ops now
  have hp : (apply_ops (NELReport.new url t0) ops).phase = "" := by
    rw [apply_ops_phase]
    rfl
  refine ⟨report_header_from now (apply_ops (NELReport.new url t0) ops), rfl, rfl, ?_, ?_⟩
  · simp [report_header_from, NELReport.is_success, hp]
  · simp [report_header_from, NELReport.is_success, hp]

/-- Claim C8: `phase` maps dns to "dns", tcp, udp and tls to "connection",
http and abandoned to "application", and every other class to "unknown"; the
wire type string is the class, a dot, and the subclass, except that class
unknown yields "unknown" and class abandoned yields "abandoned". -/
theorem error_phase_and_type :
    ∀ e : Error,
      (e.cls = "dns" → e.phase = "dns") ∧
      (e.cls = "tcp" ∨ e.cls = "udp" ∨ e.cls = "tls" → e.phase = "connection") ∧
      (e.cls = "http" ∨ e.cls = "abandoned" → e.phase = "application") ∧
      (e.cls ≠ "dns" → e.cls ≠ "tcp" → e.cls ≠ "udp" → e.cls ≠ "tls" → e.cls ≠ "http" →
        e.cls ≠ "abandoned" → e.phase = "unknown") ∧
      (e.cls = "unknown" → e.to_string = "unknown") ∧
      (e.cls = "abandoned" → e.to_string = "abandoned") ∧
      (e.cls ≠ "unknown" → e.cls ≠ "abandoned" →
        e.to_string = e.cls ++ "." ++ e.subclass) := by
  intro e
  refine ⟨?_, ?_, ?_, ?_, ?_, ?_, ?_⟩
  · intro h
    simp [Error.phase, h]
  · rintro (h | h | h) <;> simp [Error.phase, h]
  · rintro (h | h) <;> simp [Error.phase, h]
  · intro h1 h2 h3 h4 h5 h6
    simp [Error.phase, h1, h2, h3, h4, h5, h6]
  · intro h
    simp [Error.to_string, h]
  · intro h
    simp [Error.to_string, h]
  · intro h1 h2
    simp [Error.to_string, h1, h2]

/-- Claim C8, witness: the phase of `(dns, x)` and the wire type of
`(tls, cert.date_invalid)`. -/
theorem error_phase_and_type_witness :
    (⟨"dns", "x"⟩ : Error).phase = "dns" ∧
    (⟨"tls", "cert.date_invalid"⟩ : Error).to_string = "tls.cert.date_invalid" := by
  constructor
  · exact (error_phase_and_type ⟨"dns", "x"⟩).1 rfl
  · have h := (error_phase_and_type ⟨"tls", "cert.date_invalid"⟩).2.2.2.2.2.2
      (by decide) (by decide)
    rw [h]
    decide

/-- Claim C9: `set_server_ip` strips a trailing port before storing:
"[2001:db8::1]:443" stores "2001:db8::1", "10.0.0.1:80" stores "10.0.0.1",
and "10.0.0.1" is stored unchanged. -/
theorem set_server_ip_strip_examples :
    ((NELReport.new "" 0).set_server_ip (some "[2001:db8::1]:443")).server_ip = "2001:db8::1" ∧
    ((NELReport.new "" 0).set_server_ip (some "10.0.0.1:80")).server_ip = "10.0.0.1" ∧
    ((NELReport.new "" 0).set_server_ip (some "10.0.0.1")).server_ip = "10.0.0.1" := by
  refine ⟨?_, ?_, ?_⟩ <;> decide

/-- Claim C10: any `set_server_ip` input not starting with an opening bracket
is truncated at its first colon — the stored value is a colon-free leading
segment of the input — and in particular "2001:db8::1" stores "2001", not the
full address. -/
theorem set_server_ip_unbracketed :
    (∀ (r : NELReport) (s : String), s.data.head? ≠ some '[' →
      ':' ∉ ((r.set_server_ip (some s)).server_ip).data ∧
      ∃ rest, s.data = ((r.set_server_ip (some s)).server_ip).data ++ rest) ∧
    ((NELReport.new "" 0).set_server_ip (some "2001:db8::1")).server_ip = "2001" ∧
    ((NELReport.new "" 0).set_server_ip (some "2001:db8::1")).server_ip ≠ "2001:db8::1" := by
  refine ⟨?_, by decide, by decide⟩
  intro r s h
  have hs : strip_port s = ⟨s.data.takeWhile (fun c => c ≠ ':')⟩ := by
    rw [strip_port, if_neg h]
  constructor
  · intro hmem
    simp only [NELReport.set_server_ip, opt_to_string, hs] at hmem
    have := List.mem_takeWhile_imp hmem
    simp at this
  · refine ⟨(s.data.dropWhile (fun c => c ≠ ':')), ?_⟩
    simp only [NELReport.set_server_ip, opt_to_string, hs]
    exact (List.takeWhile_append_dropWhile _ _).symm

/-- Claim C10, witness: the general statement evaluated at the unbracketed
IPv6 address "2001:db8::1". -/
theorem set_server_ip_unbracketed_witness :
    ':' ∉ (((NELReport.new "" 0).set_server_ip (some "2001:db8::1")).server_ip).data ∧
    ∃ rest, ("2001:db8::1" : String).data
      = (((NELReport.new "" 0).set_server_ip (some "2001:db8::1")).server_ip).data ++ rest :=
  set_server_ip_unbracketed.1 (NELReport.new "" 0) "2001:db8::1" (by decide)

end Nel
